import Mathlib

/-!
# Verification of the epidemic simulation-and-regression core (`codes/models/epi.py`)

Shallow embedding of the functions of `epi.py` that the specification's
claims are about.  Floating-point arrays are modelled over `ℝ` (when the
code applies `exp`, `log` or `sqrt`) or over `ℚ` (for purely order/arithmetic
logic, so that concrete instances evaluate by `decide`).  Multi-dimensional
broadcast arrays are modelled per-cell: every non-time axis of the source is
independent, so one trajectory / one cell stands for all of them.
-/

namespace Epi

/-! ## Compartmental simulators (`run_SIR`, `run_SEIR`) -/

/-- One trajectory of `run_SIR`: forward-Euler states `(S, I, R)` indexed by
timestep, for per-step rate series `beta`, `gamma` (the `beta_stoch` /
`gamma_stoch` slices of one cell).  Mirrors lines 286–317 of `epi.py`:
`S[0] = 1 - I0 - R0`, and at each step
`S[i] = S[i-1] - beta[i-1]*S[i-1]*I[i-1]`,
`I[i] = I[i-1]*exp(beta[i-1]*S[i-1] - gamma[i-1])`, `R[i] = 1 - S[i] - I[i]`. -/
noncomputable def run_SIR (I0 R0 : ℝ) (beta gamma : ℕ → ℝ) : ℕ → ℝ × ℝ × ℝ
  | 0 => (1 - I0 - R0, I0, R0)
  | n + 1 =>
    let prev := run_SIR I0 R0 beta gamma n
    let new_infected_rate := beta n * prev.1
    let new_removed_rate := gamma n
    let S := prev.1 - new_infected_rate * prev.2.1
    let I := prev.2.1 * Real.exp (new_infected_rate - new_removed_rate)
    (S, I, 1 - S - I)

/-- One trajectory of `run_SEIR`: states `(S, E, I, R)` indexed by timestep.
Mirrors lines 320–357 of `epi.py`: `S[0] = 1 - I0 - R0 - E0`, and at each step
`new_exposed = beta[i-1]*S[i-1]*I[i-1]`, `new_infected = sigma[i-1]*E[i-1]`,
`new_removed = gamma[i-1]*I[i-1]`, with `R[i] = 1 - S[i] - E[i] - I[i]`. -/
noncomputable def run_SEIR (E0 I0 R0 : ℝ) (beta gamma sigma : ℕ → ℝ) :
    ℕ → ℝ × ℝ × ℝ × ℝ
  | 0 => (1 - I0 - R0 - E0, E0, I0, R0)
  | n + 1 =>
    let prev := run_SEIR E0 I0 R0 beta gamma sigma n
    let new_exposed := beta n * prev.1 * prev.2.2.1
    let new_infected := sigma n * prev.2.1
    let new_removed := gamma n * prev.2.2.1
    let S := prev.1 - new_exposed
    let E := prev.2.1 + new_exposed - new_infected
    let I := prev.2.2.1 + new_infected - new_removed
    (S, E, I, 1 - S - E - I)

/-! ## Growth-rate / transmission-rate conversions
(`get_beta_SIR`, `get_lambda_SIR`, `get_beta_SEIR`, `get_lambda_SEIR`) -/

/-- `get_beta_SEIR(lambdas, gammas, sigmas) = (lambdas+gammas)*(lambdas+sigmas)/sigmas`
(lines 156–162). -/
noncomputable def get_beta_SEIR (lambdas gammas sigmas : ℝ) : ℝ :=
  (lambdas + gammas) * (lambdas + sigmas) / sigmas

/-- `get_beta_SIR(lambdas, gammas) = lambdas + gammas` (lines 165–166). -/
def get_beta_SIR (lambdas gammas : ℝ) : ℝ := lambdas + gammas

/-- `get_lambda_SEIR(betas, gammas, sigmas)
  = (-(sigmas+gammas) + sqrt((sigmas-gammas)^2 + 4*sigmas*betas))/2`
(lines 169–172). -/
noncomputable def get_lambda_SEIR (betas gammas sigmas : ℝ) : ℝ :=
  (-(sigmas + gammas) + Real.sqrt ((sigmas - gammas) ^ 2 + 4 * sigmas * betas)) / 2

/-- `get_lambda_SIR(betas, gammas) = betas - gammas` (lines 175–176). -/
def get_lambda_SIR (betas gammas : ℝ) : ℝ := betas - gammas

/-! ## Policy-onset sampling (`init_policy_dummies`, lines 88–153)

The random draw `np.random.randint(start, end, (n_samples*2, n_effects))` is
modelled by the drawn matrix itself (`draws`, one row per oversampled
candidate).  The function then sorts each row, filters out rows with a
repeated onset day (`len(np.unique(x)) == dates.shape[1]`), asserts that
strictly more than `n_samples` rows survive, and keeps the first `n_samples`
surviving rows.  A failed `assert` is modelled as `none`. -/

/-- Row-sorting, collinearity rejection, assertion and truncation of
`init_policy_dummies` (lines 98–112). -/
def init_policy_dummies_dates (draws : List (List ℤ)) (n_samples : ℕ) :
    Option (List (List ℤ)) :=
  let dates := draws.map (List.insertionSort (· ≤ ·))
  let valid := dates.filter (fun v => decide (v.dedup.length = v.length))
  if n_samples < valid.length then some (valid.take n_samples) else none

/-! ## Timescale conversion (`adjust_timescales_from_daily`,
`adjust_timescales_to_daily`, lines 39–85) -/

/-- Action of `adjust_timescales_from_daily` (lines 39–50) on one rate-named
variable (prefix `lambda`/`beta`/`gamma`/`sigma`): multiply by `tstep`. -/
noncomputable def adjust_timescales_from_daily (tstep : ℝ) (v : ℕ → ℝ) : ℕ → ℝ :=
  fun i => v i * tstep

/-- Action of `adjust_timescales_to_daily` (lines 69–80) on one time-indexed
rate variable: day `j` gets `log(prod over the day's fine steps of (1 + x))`,
the fine steps of day `j` being `j*s, …, j*s + s - 1` (the groups of
`groupby(ds.t.astype(int))` after dropping the final fine step). -/
noncomputable def adjust_timescales_to_daily_var (s : ℕ) (x : ℕ → ℝ) : ℕ → ℝ :=
  fun j => Real.log (∏ i ∈ Finset.range s, (1 + x (j * s + i)))

/-- Action of `adjust_timescales_to_daily` (line 82) on one non-time-indexed
rate variable: `log((1 + x) ** (1 / tstep))`. -/
noncomputable def adjust_timescales_to_daily_scalar (tstep : ℝ) (x : ℝ) : ℝ :=
  Real.log ((1 + x) ^ (1 / tstep))

/-- Time-axis selection `ds.isel(t=slice(0, -1, tsteps_per_day))` performed by
`adjust_timescales_to_daily` (line 67) on an `n`-point time axis: the indices
kept in the coarse output. -/
def isel_t_slice_to_daily (n s : ℕ) : List ℕ :=
  (List.range (n - 1)).filter (fun i => decide (i % s = 0))

/-! ## Non-physical draw warning (`get_stochastic_discrete_params`,
lines 276–283) -/

/-- Result of the final check of `get_stochastic_discrete_params`: the
stochastic draw arrays (flattened to lists) are returned untouched, and
`warning` holds the warned count when one is emitted. -/
structure StochParamsResult where
  beta_stoch : List ℚ
  gamma_stoch : List ℚ
  sigma_stoch : List ℚ
  warning : Option ℕ
deriving DecidableEq

/-- Lines 276–283 of `epi.py`:
`total_neg = (out[out_vars] < 0).to_array().sum().item()`, followed by
`warnings.warn(f"{total_neg} parameter draws are <0, …")` when
`total_neg > 0`; the draws themselves are neither clamped nor resampled. -/
def check_nonphysical (beta_stoch gamma_stoch sigma_stoch : List ℚ) :
    StochParamsResult :=
  let total_neg :=
    ((beta_stoch ++ gamma_stoch) ++ sigma_stoch).countP (fun x => decide (x < 0))
  { beta_stoch := beta_stoch
    gamma_stoch := gamma_stoch
    sigma_stoch := sigma_stoch
    warning := if 0 < total_neg then some total_neg else none }

/-! ## Error paths of `get_stochastic_discrete_params` (lines 193–274) -/

/-- Python exception kinds observable from `get_stochastic_discrete_params`. -/
inductive PyError where
  | valueError (arg : String)
  | attributeError (name : String)
deriving DecidableEq

/-- Python falsiness of a noise-model selector: `None` / `False` (modelled as
`none`) and the empty string are falsy; `elif not beta_noise_on` takes the
"off" branch exactly on these. -/
def noise_falsy : Option String → Bool
  | none => true
  | some s => s == ""

/-- Control flow of `get_stochastic_discrete_params` as far as raised errors
are concerned.  Lines 193–200: the kind dispatch ends in `raise ValueError(kind)`.
Lines 226–240 and 242–256: the beta and gamma selectors end in
`raise ValueError(...)`.  Lines 258–272: the sigma selector (entered only when
`"sigma"` is among the dataset dimensions) has `normal` / `exponential` /
falsy branches but no final `else: raise`, so an unrecognized selector leaves
`sigma_stoch` unassigned; line 274 (`lambda_func(out.beta_stoch,
out.gamma_stoch, out.sigma_stoch)`) then fails with an `AttributeError` on
the missing variable. -/
def get_stochastic_discrete_params_errors (kind : String)
    (beta_noise_on gamma_noise_on sigma_noise_on : Option String)
    (sigma_in_dims : Bool) : Except PyError Unit :=
  if kind = "SIR" ∨ kind = "SEIR" then
    if beta_noise_on = some "normal" ∨ beta_noise_on = some "exponential" ∨
        noise_falsy beta_noise_on then
      if gamma_noise_on = some "normal" ∨ gamma_noise_on = some "exponential" ∨
          noise_falsy gamma_noise_on then
        if sigma_in_dims ∧ (sigma_noise_on = some "normal" ∨
            sigma_noise_on = some "exponential" ∨ noise_falsy sigma_noise_on) then
          Except.ok ()
        else Except.error (PyError.attributeError "sigma_stoch")
      else Except.error (PyError.valueError (gamma_noise_on.getD "None"))
    else Except.error (PyError.valueError (beta_noise_on.getD "None"))
  else Except.error (PyError.valueError kind)

/-- Whether a run outcome is a configuration error raised by a selector
(a Python `ValueError`). -/
def raises_config_error : Except PyError Unit → Bool
  | Except.error (PyError.valueError _) => true
  | _ => false

/-! ## Randomized regression end (`simulate_and_regress`, lines 584–597 and
607–611) and the regression gating (lines 565, 574, 579–582, 606–616) -/

/-- `np.ndarray.round()` / `DataArray.round()`: round half to even. -/
def np_round (x : ℚ) : ℤ :=
  if Int.fract x < 1 / 2 then ⌊x⌋
  else if 1 / 2 < Int.fract x then ⌊x⌋ + 1
  else if ⌊x⌋ % 2 = 0 then ⌊x⌋ else ⌊x⌋ + 1

/-- `np.argmax` of a boolean vector: the index of the first `True`, and 0 when
every entry is `False`. -/
def argmaxBool (xs : List Bool) : ℕ :=
  if xs.any (fun b => b) then xs.findIdx (fun b => b) else 0

/-- Lines 587–594 of `epi.py`, for one sample:
`last_pol = (daily_ds.policy_timeseries.sum(dim="policy") == 3).argmax(dim="t")`
followed by
`last_reg_day = ((daily_ds.dims["t"] - (last_pol + 1)) * random_end).round().astype(int) + last_pol + 1`.
`polSum` is the per-day sum of the policy indicators; `random_end` is the
sample's uniform draw. -/
def last_reg_day (polSum : List ℚ) (random_end : ℚ) : ℤ :=
  let last_pol : ℤ := argmaxBool (polSum.map (fun x => decide (x = 3)))
  np_round (((polSum.length : ℚ) - ((last_pol : ℚ) + 1)) * random_end) + last_pol + 1

/-- The claim's formula for the randomized regression end.  Modelled from the
spec: `last-policy-onset-day + round(random_end_fraction × (total_days −
last-policy-onset-day − 1)) + 1`, with `last-policy-onset-day` the onset day
of the final configured policy.  Kept for comparison with `last_reg_day`. -/
def last_reg_day_spec (lastOnset total_days : ℕ) (random_end : ℚ) : ℤ :=
  (lastOnset : ℤ) +
    np_round (random_end * ((total_days : ℚ) - (lastOnset : ℚ) - 1)) + 1

/-- Line 610 of `epi.py`:
`this_valid = (this_valid) & (RHS_ds.t <= last_reg_day[samp])`, with the `t`
coordinate being the day index. -/
def apply_random_end (valid : ℕ → Bool) (lrd : ℤ) : ℕ → Bool :=
  fun i => valid i && decide ((i : ℤ) ≤ lrd)

/-- Line 565 + line 580: `(RHS_old > 0).max(dim="policy")` — per day, whether
any policy indicator is strictly positive (`RHS_old` is
`(daily_ds.policy_timeseries > 0).astype(int)`). -/
def any_policy_active (policy_by_day : List (List ℚ)) : List Bool :=
  policy_by_day.map (fun day => day.any (fun x => decide (0 < x)))

/-- Line 574: `valid_reg = daily_ds.IR >= min_cases / pop`, per day. -/
def valid_reg (IR : List ℚ) (min_cases pop : ℚ) : List Bool :=
  IR.map (fun x => decide (min_cases / pop ≤ x))

/-- Boolean-mask selection `arr[mask]` along the day axis. -/
def maskSelect {α : Type} (xs : List α) (mask : List Bool) : List α :=
  ((xs.zip mask).filter (fun p => p.2)).map (fun p => p.1)

/-- One `(LHS × gamma × sigma × sample)` cell of the regression loop
(lines 579–582 and 606–616): the cell of `estimates` stays at its initialized
`np.nan` fill (modelled `none`) unless
`no_pol_on_regday0 = (RHS_old > 0).max(dim="policy").argmax(dim="t") > valid_reg.argmax(dim="t")`
holds for the cell, in which case `OLS(LHS, RHS, missing="drop").fit().params`
(abstracted by `ols`) is stored for the mask-selected valid days. -/
def regress_cell {γ : Type} (ols : List ℚ → List (List ℚ) → γ)
    (lhs : List ℚ) (rhs : List (List ℚ)) (pol_any valid_mask : List Bool) :
    Option γ :=
  if argmaxBool pol_any > argmaxBool valid_mask then
    some (ols (maskSelect lhs valid_mask) (maskSelect rhs valid_mask))
  else none

/-! ## SIR setup branch of `simulate_and_regress` (lines 450–456) -/

/-- A value of the sigma sweep grid: either `np.nan` or an ordinary number. -/
inductive SigmaVal where
  | nan
  | val (q : ℚ)
deriving DecidableEq

/-- The `elif kind == "SIR"` setup branch of `simulate_and_regress`
(lines 450–456): `sigma_to_test = [np.nan]`, `sigma_noise_on = False`
(modelled `none`), and `LHS_vars = [l for l in LHS_vars if "E" not in l]` —
for the single character `"E"`, Python substring containment is membership of
`'E'` among the name's characters; any other kind leaves the three inputs
untouched by this branch. -/
def sir_setup (kind : String) (sigma_to_test : List SigmaVal)
    (sigma_noise_on : Option String) (LHS_vars : List String) :
    List SigmaVal × Option String × List String :=
  if kind = "SIR" then
    ([SigmaVal.nan], none, LHS_vars.filter (fun l => ! l.toList.contains 'E'))
  else (sigma_to_test, sigma_noise_on, LHS_vars)

/-- Sigma and LHS coordinates of the returned coefficient tensor: both
`init_reg_ds` (lines 477–483) and the `estimates` array (lines 552–561) are
built from the post-setup `sigma_to_test` grid and `LHS_vars` list. -/
structure CoefCoords where
  sigma : List SigmaVal
  LHS : List String
deriving DecidableEq

/-- Coefficient-tensor coordinates produced by `simulate_and_regress` for a
given kind and configured grids. -/
def coef_coords (kind : String) (sigma_to_test : List SigmaVal)
    (sigma_noise_on : Option String) (LHS_vars : List String) : CoefCoords :=
  let r := sir_setup kind sigma_to_test sigma_noise_on LHS_vars
  { sigma := r.1, LHS := r.2.2 }

end Epi

namespace Epi

/-! ## Theorems -/

/-- Helper: the SIR state sum is exactly 1 at every step. -/
lemma run_SIR_sum_eq_one (I0 R0 : ℝ) (beta gamma : ℕ → ℝ) (n : ℕ) :
    (run_SIR I0 R0 beta gamma n).1 + (run_SIR I0 R0 beta gamma n).2.1 +
      (run_SIR I0 R0 beta gamma n).2.2 = 1 := by
  cases n with
  | zero => simp [run_SIR]; ring
  | succ m => simp [run_SIR]

/-- Helper: the SEIR state sum is exactly 1 at every step. -/
lemma run_SEIR_sum_eq_one (E0 I0 R0 : ℝ) (beta gamma sigma : ℕ → ℝ) (n : ℕ) :
    (run_SEIR E0 I0 R0 beta gamma sigma n).1 +
      (run_SEIR E0 I0 R0 beta gamma sigma n).2.1 +
      (run_SEIR E0 I0 R0 beta gamma sigma n).2.2.1 +
      (run_SEIR E0 I0 R0 beta gamma sigma n).2.2.2 = 1 := by
  cases n with
  | zero => simp [run_SEIR]; ring
  | succ m => simp [run_SEIR]

/-- C1: for every `run_SIR` simulation (states S, I, R) and every `run_SEIR`
simulation (states S, E, I, R) — whose initial fractions sum to 1 since
`S[0]` is defined as the remainder — the compartment fractions sum to 1 at
every timestep within tolerance `1e-9` (indeed exactly, over the reals). -/
theorem C1_compartments_sum_to_one :
    (∀ (I0 R0 : ℝ) (beta gamma : ℕ → ℝ) (n : ℕ),
      |(run_SIR I0 R0 beta gamma n).1 + (run_SIR I0 R0 beta gamma n).2.1 +
        (run_SIR I0 R0 beta gamma n).2.2 - 1| ≤ 1 / 10 ^ 9) ∧
    (∀ (E0 I0 R0 : ℝ) (beta gamma sigma : ℕ → ℝ) (n : ℕ),
      |(run_SEIR E0 I0 R0 beta gamma sigma n).1 +
        (run_SEIR E0 I0 R0 beta gamma sigma n).2.1 +
        (run_SEIR E0 I0 R0 beta gamma sigma n).2.2.1 +
        (run_SEIR E0 I0 R0 beta gamma sigma n).2.2.2 - 1| ≤ 1 / 10 ^ 9) := by
  constructor
  · intro I0 R0 beta gamma n
    rw [run_SIR_sum_eq_one]
    norm_num
  · intro E0 I0 R0 beta gamma sigma n
    rw [run_SEIR_sum_eq_one]
    norm_num

/-- C7: `get_beta_SIR (get_lambda_SIR β γ) γ = β` exactly for all reals, and
`get_beta_SEIR (get_lambda_SEIR β γ σ) γ σ = β` for positive `β`, `γ`, `σ`
(exactly, hence within any numerical tolerance): each pair is a mutual
inverse. -/
theorem C7_beta_lambda_inverses :
    (∀ beta gamma : ℝ, get_beta_SIR (get_lambda_SIR beta gamma) gamma = beta) ∧
    (∀ beta gamma sigma : ℝ, 0 < beta → 0 < gamma → 0 < sigma →
      get_beta_SEIR (get_lambda_SEIR beta gamma sigma) gamma sigma = beta) := by
  constructor
  · intro beta gamma
    simp [get_beta_SIR, get_lambda_SIR]
  · intro beta gamma sigma hb hg hs
    have hD : (0:ℝ) ≤ (sigma - gamma) ^ 2 + 4 * sigma * beta := by positivity
    have hsq := Real.sq_sqrt hD
    set s := Real.sqrt ((sigma - gamma) ^ 2 + 4 * sigma * beta) with hs_def
    rw [get_beta_SEIR, get_lambda_SEIR, ← hs_def]
    rw [div_eq_iff (ne_of_gt hs)]
    nlinarith [hsq]

/-- C7 witness: concrete instances of both inverse identities. -/
theorem C7_beta_lambda_inverses_witness :
    get_beta_SIR (get_lambda_SIR 2 3) 3 = 2 ∧
    ((0:ℝ) < 1 ∧ get_beta_SEIR (get_lambda_SEIR 1 1 1) 1 1 = 1) :=
  ⟨C7_beta_lambda_inverses.1 2 3,
    one_pos, C7_beta_lambda_inverses.2 1 1 1 one_pos one_pos one_pos⟩

/-- C2: with the `2 × n_samples` oversampled draw modelled by the drawn rows,
`init_policy_dummies` sorts each row ascending, rejects every row in which
two or more policies share an onset day, fails its assertion (modelled
`none`) unless strictly more than `n_samples` valid rows remain, and
otherwise keeps exactly the first `n_samples` valid rows — so it never
returns fewer than the requested `n_samples` samples. -/
theorem C2_init_policy_dummies (draws : List (List ℤ)) (n_samples : ℕ)
    (h2n : draws.length = 2 * n_samples) :
    (init_policy_dummies_dates draws n_samples = none ↔
      ¬ n_samples < ((draws.map (List.insertionSort (· ≤ ·))).filter
        (fun v => decide (v.dedup.length = v.length))).length) ∧
    (∀ out, init_policy_dummies_dates draws n_samples = some out →
      out.length = n_samples ∧
      out = ((draws.map (List.insertionSort (· ≤ ·))).filter
        (fun v => decide (v.dedup.length = v.length))).take n_samples ∧
      ∀ v ∈ out, List.Sorted (· ≤ ·) v ∧ v.Nodup ∧ ∃ d ∈ draws, List.Perm v d) := by
  clear h2n
  simp only [init_policy_dummies_dates]
  constructor
  · split_ifs with h
    · simp [h]
    · simp [h]
  · intro out hout
    split_ifs at hout with h
    · have hout' : out = ((draws.map (List.insertionSort (· ≤ ·))).filter
          (fun v => decide (v.dedup.length = v.length))).take n_samples :=
        (Option.some.injEq _ _).mp hout.symm
      subst hout'
      refine ⟨?_, rfl, ?_⟩
      · rw [List.length_take]
        omega
      · intro v hv
        have hv' := List.take_subset _ _ hv
        rw [List.mem_filter] at hv'
        obtain ⟨hmem, hp⟩ := hv'
        rw [List.mem_map] at hmem
        obtain ⟨d, hd, rfl⟩ := hmem
        have hlen := of_decide_eq_true hp
        exact ⟨List.sorted_insertionSort _ _,
          List.dedup_eq_self.mp ((List.dedup_sublist _).eq_of_length hlen),
          d, hd, List.perm_insertionSort _ _⟩

/-- C2 witness: a concrete oversampled draw with one collinear row, evaluated. -/
theorem C2_init_policy_dummies_witness :
    init_policy_dummies_dates [[2, 1], [4, 3]] 1 = some [[1, 2]] ∧
    [[1, 2]].length = 1 :=
  ⟨by decide,
    ((C2_init_policy_dummies [[2, 1], [4, 3]] 1 (by decide)).2
      [[1, 2]] (by decide)).1⟩

/-- C3 counterexample: a rate with constant daily value 1, converted to the
fine timescale with `tstep = 1` and back with one step per day, returns
`log 2 ≠ 1` — the two converters are not mutually inverse. -/
theorem C3_roundtrip_counterexample :
    adjust_timescales_to_daily_var 1
      (adjust_timescales_from_daily 1 (fun _ => 1)) 0 ≠ 1 := by
  have h : adjust_timescales_to_daily_var 1
      (adjust_timescales_from_daily 1 (fun _ => 1)) 0 = Real.log 2 := by
    simp [adjust_timescales_to_daily_var, adjust_timescales_from_daily]
    norm_num
  rw [h]
  intro hc
  have hlt := Real.log_two_lt_d9
  rw [hc] at hlt
  norm_num at hlt

/-- C3 corrected: with one step per day (so `tstep = 1`), applying the
fine-to-coarse converter to rates produced by the coarse-to-fine converter
returns `log (1 + v)` for every rate value `v` — on both the time-indexed and
non-time-indexed paths — rather than `v`; the original daily value is
recovered exactly only when the sampler's discrete-rate transform
`exp(·) − 1` (line 206) is interposed between the two converters. -/
theorem C3_roundtrip_log1p (v : ℕ → ℝ) (j : ℕ) (x : ℝ) :
    adjust_timescales_to_daily_var 1 (adjust_timescales_from_daily 1 v) j =
      Real.log (1 + v j) ∧
    adjust_timescales_to_daily_scalar 1
      (adjust_timescales_from_daily 1 (fun _ => x) 0) = Real.log (1 + x) ∧
    adjust_timescales_to_daily_var 1
      (fun i => Real.exp (adjust_timescales_from_daily 1 v i) - 1) j = v j := by
  refine ⟨?_, ?_, ?_⟩
  · simp [adjust_timescales_to_daily_var, adjust_timescales_from_daily]
  · norm_num [adjust_timescales_to_daily_scalar, adjust_timescales_from_daily,
      Real.rpow_one]
  · simp [adjust_timescales_to_daily_var, adjust_timescales_from_daily,
      Real.log_exp]

/-- C5 counterexample: a draw equal to exactly 0 is non-positive, yet
`check_nonphysical` emits no warning — the code counts draws strictly below
zero, not draws `≤ 0`. -/
theorem C5_nonpositive_counterexample :
    (check_nonphysical [0] [] []).warning = none ∧
    0 < ((([0] : List ℚ) ++ []) ++ []).countP (fun x => decide (x ≤ 0)) := by
  decide

/-- C5 corrected: the final check of `get_stochastic_discrete_params` emits a
warning — and does not fail, clamp, or resample — if and only if some sampled
beta/gamma/sigma stochastic draw is strictly negative (`< 0`, not `≤ 0`); the
warning reports the aggregate count of strictly negative draws, and the draw
arrays are returned unchanged. -/
theorem C5_negative_draw_warning (b g s : List ℚ) :
    ((check_nonphysical b g s).warning ≠ none ↔ ∃ x ∈ (b ++ g) ++ s, x < 0) ∧
    (∀ k, (check_nonphysical b g s).warning = some k →
      k = ((b ++ g) ++ s).countP (fun x => decide (x < 0)) ∧ 0 < k) ∧
    (check_nonphysical b g s).beta_stoch = b ∧
    (check_nonphysical b g s).gamma_stoch = g ∧
    (check_nonphysical b g s).sigma_stoch = s := by
  have hcount : 0 < ((b ++ g) ++ s).countP (fun x => decide (x < 0)) ↔
      ∃ x ∈ (b ++ g) ++ s, x < 0 := by
    simp only [List.countP_pos_iff, decide_eq_true_eq]
  refine ⟨?_, ?_, rfl, rfl, rfl⟩
  · rw [← hcount]
    simp only [check_nonphysical]
    split_ifs with h
    · simpa using h
    · simpa using h
  · intro k hk
    simp only [check_nonphysical] at hk
    split_ifs at hk with h
    · obtain rfl : _ = k := (Option.some.injEq _ _).mp hk
      exact ⟨rfl, h⟩

/-- C5 witness: one strictly negative draw produces a warning with count 1. -/
theorem C5_negative_draw_warning_witness :
    (check_nonphysical [-1] [] []).warning = some 1 ∧
    (1 : ℕ) = ((([-1] : List ℚ) ++ []) ++ []).countP (fun x => decide (x < 0)) ∧
    0 < 1 :=
  ⟨by decide, (C5_negative_draw_warning [-1] [] []).2.1 1 (by decide)⟩

/-- Helper: the count of multiples of `s` below `m` is `(m + s - 1) / s`. -/
lemma length_filter_mod_range (s : ℕ) (hs : 0 < s) :
    ∀ m : ℕ, ((List.range m).filter (fun i => decide (i % s = 0))).length
      = (m + s - 1) / s := by
  intro m
  induction m with
  | zero =>
    have h0 : 0 + s - 1 = s - 1 := by omega
    rw [h0]
    simp [Nat.div_eq_of_lt (show s - 1 < s by omega)]
  | succ m ih =>
    rw [List.range_succ, List.filter_append, List.length_append, ih]
    have harith : m + 1 + s - 1 = m + s - 1 + 1 := by omega
    rw [harith, Nat.succ_div]
    have hdvd : (s ∣ m + s - 1 + 1) ↔ (s ∣ m) := by
      have h2 : m + s - 1 + 1 = m + s := by omega
      rw [h2]
      exact Nat.dvd_add_self_right
    by_cases h : m % s = 0
    · have hsm : s ∣ m := Nat.dvd_of_mod_eq_zero h
      simp [h, hdvd.mpr hsm]
    · have hsm : ¬ s ∣ m := fun hd => h (Nat.mod_eq_zero_of_dvd hd)
      simp [h, hdvd, hsm]

/-- C6 counterexample: a 10-point fine time axis with 4 steps per day yields
3 coarse output steps, not `floor(10 / 4) = 2`. -/
theorem C6_output_count_counterexample :
    (isel_t_slice_to_daily 10 4).length = 3 ∧ (10 : ℕ) / 4 = 2 ∧ (3 : ℕ) ≠ 2 := by
  decide

/-- C6 corrected: the conversion drops the final fine step before grouping —
every selected index is a multiple of `steps_per_day` strictly below
`n_fine_steps − 1` — and produces exactly
`(n_fine_steps − 2) / steps_per_day + 1` (the ceiling of
`(n_fine_steps − 1) / steps_per_day`) coarse output steps, not
`floor(n_fine_steps / steps_per_day)`. -/
theorem C6_output_count (n s : ℕ) (hs : 0 < s) (hn : 2 ≤ n) :
    (isel_t_slice_to_daily n s).length = (n - 2) / s + 1 ∧
    ∀ i ∈ isel_t_slice_to_daily n s, i < n - 1 ∧ i % s = 0 := by
  constructor
  · rw [isel_t_slice_to_daily, length_filter_mod_range s hs]
    have h1 : n - 1 + s - 1 = (n - 2) + s := by omega
    rw [h1, Nat.add_div_right _ hs]
  · intro i hi
    rw [isel_t_slice_to_daily, List.mem_filter] at hi
    obtain ⟨h1, h2⟩ := hi
    exact ⟨List.mem_range.mp h1, of_decide_eq_true h2⟩

/-- C6 witness: a 9-point axis with 4 steps per day keeps indices 0 and 4. -/
theorem C6_output_count_witness :
    isel_t_slice_to_daily 9 4 = [0, 4] ∧
    (isel_t_slice_to_daily 9 4).length = (9 - 2) / 4 + 1 :=
  ⟨by decide, (C6_output_count 9 4 (by decide) (by decide)).1⟩

/-- Helper: `findIdx` returns the position of the first element satisfying `p`. -/
lemma findIdx_eq_of_first {α : Type} (p : α → Bool) (dflt : α) :
    ∀ (xs : List α) (d : ℕ), d < xs.length →
      p (xs.getD d dflt) = true →
      (∀ j, j < d → p (xs.getD j dflt) = false) →
      xs.findIdx p = d := by
  intro xs
  induction xs with
  | nil => intro d hd _ _; simp at hd
  | cons a t ih =>
    intro d hd htrue hfalse
    cases d with
    | zero =>
      rw [List.findIdx_cons]
      simp only [List.getD_cons_zero] at htrue
      rw [htrue]
      rfl
    | succ k =>
      have ha : p a = false := by simpa using hfalse 0 (Nat.succ_pos k)
      rw [List.findIdx_cons, ha]
      have hk : k < t.length := by simpa using hd
      have ht : p (t.getD k dflt) = true := by simpa using htrue
      have hf : ∀ j, j < k → p (t.getD j dflt) = false := by
        intro j hj
        simpa using hfalse (j + 1) (by omega)
      simp [ih k hk ht hf]

/-- Helper: `argmaxBool` of a boolean vector whose first `true` is at `d`. -/
lemma argmaxBool_eq_of_first (xs : List Bool) (d : ℕ) (hd : d < xs.length)
    (htrue : xs.getD d false = true)
    (hfalse : ∀ j, j < d → xs.getD j false = false) :
    argmaxBool xs = d := by
  have hany : xs.any (fun b => b) = true := by
    rw [List.any_eq_true]
    refine ⟨xs.getD d false, ?_, htrue⟩
    rw [List.getD_eq_getElem xs false hd]
    exact List.getElem_mem hd
  rw [argmaxBool, if_pos hany]
  exact findIdx_eq_of_first (fun b => b) false xs d hd htrue hfalse

/-- C4 counterexample: with two configured step policies (onset days 2 and 5
on a 10-day axis, `random_end` fraction 0) the cumulative indicator sum never
reaches 3, the code's `argmax` falls back to day 0, and the computed last
regression day is 1, while the claimed formula keyed on the final policy's
onset gives 6. -/
theorem C4_last_reg_day_counterexample :
    last_reg_day [0, 0, 1, 1, 1, 2, 2, 2, 2, 2] 0 = 1 ∧
    last_reg_day_spec 5 10 0 = 6 ∧ (1 : ℤ) ≠ 6 := by
  refine ⟨?_, ?_, by decide⟩
  · rw [last_reg_day]
    have hm : argmaxBool (([0, 0, 1, 1, 1, 2, 2, 2, 2, 2] : List ℚ).map
        (fun x => decide (x = 3))) = 0 := by decide
    rw [hm]
    norm_num [np_round]
  · rw [last_reg_day_spec]
    norm_num [np_round]

/-- C4 corrected: the code keys the randomized regression end on the first
day `d` at which the cumulative policy-indicator sum equals exactly 3 (the
final policy's onset only when exactly three fully-activating policies are
configured).  For such a day `d`, the sample's last regression day equals
`d + round(random_end_fraction × (total_days − d − 1)) + 1` (round half to
even), and every observation day strictly beyond it is excluded from the OLS
fit's validity mask. -/
theorem C4_last_reg_day (polSum : List ℚ) (r : ℚ) (valid : ℕ → Bool) (d : ℕ)
    (hd : d < polSum.length)
    (h3 : polSum.getD d 0 = 3)
    (hfirst : ∀ j, j < d → polSum.getD j 0 ≠ 3) :
    last_reg_day polSum r =
      (d : ℤ) + np_round (r * ((polSum.length : ℚ) - (d : ℚ) - 1)) + 1 ∧
    ∀ i : ℕ, last_reg_day polSum r < (i : ℤ) →
      apply_random_end valid (last_reg_day polSum r) i = false := by
  have hlen : d < (polSum.map (fun x => decide (x = 3))).length := by simpa using hd
  have hmap : argmaxBool (polSum.map (fun x => decide (x = 3))) = d := by
    apply argmaxBool_eq_of_first _ d hlen
    · rw [List.getD_eq_getElem _ _ hlen, List.getElem_map,
        ← List.getD_eq_getElem _ (0 : ℚ) hd, h3]
      simp
    · intro j hj
      have hjlen : j < (polSum.map (fun x => decide (x = 3))).length :=
        Nat.lt_trans hj hlen
      rw [List.getD_eq_getElem _ _ hjlen, List.getElem_map,
        ← List.getD_eq_getElem _ (0 : ℚ) (by simpa using hjlen)]
      exact decide_eq_false (hfirst j hj)
  constructor
  · rw [last_reg_day]
    rw [hmap]
    have harg : ((polSum.length : ℚ) - (((d : ℤ) : ℚ) + 1)) * r
        = r * ((polSum.length : ℚ) - (d : ℚ) - 1) := by
      push_cast
      ring
    rw [harg]
    ring
  · intro i hi
    have hle : ¬ ((i : ℤ) ≤ last_reg_day polSum r) := by omega
    simp [apply_random_end, hle]

/-- C4 witness: three step policies with onsets on days 1, 2, 3 of a 5-day
axis, `random_end` fraction 1/2; day 7 lies beyond the regression end. -/
theorem C4_last_reg_day_witness :
    last_reg_day [0, 1, 2, 3, 3] (1/2) =
      (3 : ℤ) + np_round ((1/2 : ℚ) *
        ((([0, 1, 2, 3, 3] : List ℚ).length : ℚ) - (3 : ℚ) - 1)) + 1 ∧
    apply_random_end (fun _ => true) (last_reg_day [0, 1, 2, 3, 3] (1/2)) 7 = false := by
  have key := C4_last_reg_day [0, 1, 2, 3, 3] (1/2) (fun _ => true) 3 (by decide)
    (by decide) (by intro j hj; interval_cases j <;> decide)
  refine ⟨key.1, key.2 7 ?_⟩
  rw [key.1]
  norm_num [np_round, Int.fract]

/-- C8 counterexample: an unknown sigma noise-model string does not raise a
configuration `ValueError` — the sigma selector has no `else: raise` — and
the call instead fails on the missing `sigma_stoch` attribute. -/
theorem C8_config_errors_counterexample :
    get_stochastic_discrete_params_errors "SEIR" none none (some "triangular") true =
      Except.error (PyError.attributeError "sigma_stoch") ∧
    raises_config_error
      (get_stochastic_discrete_params_errors "SEIR" none none
        (some "triangular") true) = false := by
  refine ⟨by rfl, by rfl⟩

/-- C8 corrected: `get_stochastic_discrete_params` raises an immediate
`ValueError` for every unknown epidemic-kind string and for every unknown
beta or gamma noise-model string, before any simulation work; an unknown
sigma noise-model string, however, is not validated by its selector — the
stochastic sigma is simply never assigned, and the subsequent growth-rate
computation fails with an `AttributeError`, not a configuration error. -/
theorem C8_config_errors (kind : String) (bn gn sn : Option String)
    (sigma_in_dims : Bool) :
    (¬ (kind = "SIR" ∨ kind = "SEIR") →
      get_stochastic_discrete_params_errors kind bn gn sn sigma_in_dims =
        Except.error (PyError.valueError kind)) ∧
    ((kind = "SIR" ∨ kind = "SEIR") →
      ¬ (bn = some "normal" ∨ bn = some "exponential" ∨ noise_falsy bn) →
      get_stochastic_discrete_params_errors kind bn gn sn sigma_in_dims =
        Except.error (PyError.valueError (bn.getD "None"))) ∧
    ((kind = "SIR" ∨ kind = "SEIR") →
      (bn = some "normal" ∨ bn = some "exponential" ∨ noise_falsy bn) →
      ¬ (gn = some "normal" ∨ gn = some "exponential" ∨ noise_falsy gn) →
      get_stochastic_discrete_params_errors kind bn gn sn sigma_in_dims =
        Except.error (PyError.valueError (gn.getD "None"))) ∧
    ((kind = "SIR" ∨ kind = "SEIR") →
      (bn = some "normal" ∨ bn = some "exponential" ∨ noise_falsy bn) →
      (gn = some "normal" ∨ gn = some "exponential" ∨ noise_falsy gn) →
      ¬ (sn = some "normal" ∨ sn = some "exponential" ∨ noise_falsy sn) →
      get_stochastic_discrete_params_errors kind bn gn sn sigma_in_dims =
        Except.error (PyError.attributeError "sigma_stoch") ∧
      raises_config_error
        (get_stochastic_discrete_params_errors kind bn gn sn sigma_in_dims) =
        false) := by
  refine ⟨?_, ?_, ?_, ?_⟩
  · intro hk
    rw [get_stochastic_discrete_params_errors, if_neg hk]
  · intro hk hb
    rw [get_stochastic_discrete_params_errors, if_pos hk, if_neg hb]
  · intro hk hb hg
    rw [get_stochastic_discrete_params_errors, if_pos hk, if_pos hb, if_neg hg]
  · intro hk hb hg hs
    have hcond : ¬ (sigma_in_dims = true ∧ (sn = some "normal" ∨
        sn = some "exponential" ∨ noise_falsy sn = true)) := fun hc => hs hc.2
    rw [get_stochastic_discrete_params_errors, if_pos hk, if_pos hb, if_pos hg,
      if_neg hcond]
    exact ⟨rfl, rfl⟩

/-- C8 witness: concrete unknown kind, beta and gamma selector strings all
raise the configuration `ValueError`. -/
theorem C8_config_errors_witness :
    get_stochastic_discrete_params_errors "FOO" none none none false =
      Except.error (PyError.valueError "FOO") ∧
    get_stochastic_discrete_params_errors "SIR" (some "weird") none none true =
      Except.error (PyError.valueError "weird") ∧
    get_stochastic_discrete_params_errors "SIR" none (some "weird") none true =
      Except.error (PyError.valueError "weird") :=
  ⟨(C8_config_errors "FOO" none none none false).1 (by decide),
    (C8_config_errors "SIR" (some "weird") none none true).2.1 (Or.inl rfl)
      (by decide),
    (C8_config_errors "SIR" none (some "weird") none true).2.2.1 (Or.inl rfl)
      (by decide) (by decide)⟩

/-- C9: a cell's OLS fit is attempted if and only if the first day on which
any policy is active (the first `true` of the per-day any-policy indicator,
which exists by hypothesis) occurs strictly after the first day on which the
minimum-case threshold is met; otherwise the cell stays at its initialized
missing value (`none`, the `np.nan` fill) and no error is raised. -/
theorem C9_regression_gating {γ : Type} (ols : List ℚ → List (List ℚ) → γ)
    (lhs : List ℚ) (rhs : List (List ℚ)) (policy_by_day : List (List ℚ))
    (IR : List ℚ) (min_cases pop : ℚ)
    (hpol : (any_policy_active policy_by_day).any (fun b => b) = true)
    (hval : (valid_reg IR min_cases pop).any (fun b => b) = true) :
    ((regress_cell ols lhs rhs (any_policy_active policy_by_day)
        (valid_reg IR min_cases pop)).isSome = true ↔
      (valid_reg IR min_cases pop).findIdx (fun b => b) <
        (any_policy_active policy_by_day).findIdx (fun b => b)) ∧
    (¬ ((valid_reg IR min_cases pop).findIdx (fun b => b) <
        (any_policy_active policy_by_day).findIdx (fun b => b)) →
      regress_cell ols lhs rhs (any_policy_active policy_by_day)
        (valid_reg IR min_cases pop) = none) := by
  have h1 : argmaxBool (any_policy_active policy_by_day)
      = (any_policy_active policy_by_day).findIdx (fun b => b) := by
    rw [argmaxBool, if_pos hpol]
  have h2 : argmaxBool (valid_reg IR min_cases pop)
      = (valid_reg IR min_cases pop).findIdx (fun b => b) := by
    rw [argmaxBool, if_pos hval]
  simp only [regress_cell, h1, h2]
  constructor
  · split_ifs with h
    · simpa using h
    · simpa using h
  · intro h
    rw [if_neg h]

/-- C9 witness: a policy starting on day 2 with the threshold met from day 0
produces an attempted fit. -/
theorem C9_regression_gating_witness :
    (regress_cell (fun _ _ => (0 : ℚ)) [1, 2, 3] [[1], [1], [1]]
        (any_policy_active [[0], [0], [1]]) (valid_reg [5, 5, 5] 1 1)).isSome
      = true ∧
    (valid_reg [5, 5, 5] 1 1).findIdx (fun b => b) <
      (any_policy_active [[0], [0], [1]]).findIdx (fun b => b) := by
  have hv : valid_reg [5, 5, 5] 1 1 = [true, true, true] := by
    norm_num [valid_reg]
  have hp : any_policy_active [[0], [0], [1]] = [false, false, true] := by decide
  have key := C9_regression_gating (fun _ _ => (0 : ℚ)) [1, 2, 3] [[1], [1], [1]]
    [[0], [0], [1]] [5, 5, 5] 1 1 (by rw [hp]; decide) (by rw [hv]; decide)
  refine ⟨key.1.mpr ?_, ?_⟩ <;> rw [hv, hp] <;> decide

/-- C10: with `kind = "SIR"`, before any computation the setup branch of
`simulate_and_regress` replaces the sigma sweep grid by the single value NaN,
forces sigma noise off, and removes exactly the LHS variables whose name
contains `"E"`, so the returned coefficient tensor has one sigma coordinate
and no LHS coordinate containing `"E"`. -/
theorem C10_sir_setup (kind : String) (sigma_to_test : List SigmaVal)
    (sigma_noise_on : Option String) (LHS_vars : List String)
    (hk : kind = "SIR") :
    (coef_coords kind sigma_to_test sigma_noise_on LHS_vars).sigma =
      [SigmaVal.nan] ∧
    (coef_coords kind sigma_to_test sigma_noise_on LHS_vars).sigma.length = 1 ∧
    (sir_setup kind sigma_to_test sigma_noise_on LHS_vars).2.1 = none ∧
    (coef_coords kind sigma_to_test sigma_noise_on LHS_vars).LHS =
      LHS_vars.filter (fun l => ! l.toList.contains 'E') ∧
    (∀ l ∈ (coef_coords kind sigma_to_test sigma_noise_on LHS_vars).LHS,
      l.toList.contains 'E' = false) ∧
    (∀ l ∈ LHS_vars, l.toList.contains 'E' = false →
      l ∈ (coef_coords kind sigma_to_test sigma_noise_on LHS_vars).LHS) := by
  subst hk
  have hs : sir_setup "SIR" sigma_to_test sigma_noise_on LHS_vars =
      ([SigmaVal.nan], none, LHS_vars.filter (fun l => ! l.toList.contains 'E')) := by
    rw [sir_setup, if_pos rfl]
  refine ⟨?_, ?_, ?_, ?_, ?_, ?_⟩
  · simp [coef_coords, hs]
  · simp [coef_coords, hs]
  · simp [hs]
  · simp [coef_coords, hs]
  · intro l hl
    simp only [coef_coords, hs] at hl
    rw [List.mem_filter] at hl
    simpa using hl.2
  · intro l hl hE
    simp only [coef_coords, hs]
    rw [List.mem_filter]
    exact ⟨hl, by rw [hE]; rfl⟩

/-- C10 witness: a concrete SIR call removes `"EI"` and `"E"` from the LHS
list and collapses the sigma grid to `[NaN]`. -/
theorem C10_sir_setup_witness :
    coef_coords "SIR" [SigmaVal.val 1, SigmaVal.val 2] (some "normal")
        ["I", "EI", "IR", "E"] =
      { sigma := [SigmaVal.nan], LHS := ["I", "IR"] } ∧
    (sir_setup "SIR" [SigmaVal.val 1, SigmaVal.val 2] (some "normal")
        ["I", "EI", "IR", "E"]).2.1 = none :=
  ⟨by decide,
    (C10_sir_setup "SIR" [SigmaVal.val 1, SigmaVal.val 2] (some "normal")
      ["I", "EI", "IR", "E"] rfl).2.2.1⟩

end Epi
